import Mathlib

/-!
Verification development for the two IDAES tutorial notebooks of this
repository: `mixer_testing.ipynb` (a two-inlet benzene/toluene mixer,
Cases 1 and 2) and the 0D heat-exchanger notebook (shell/tube, Options
1 and 2).  The notebooks assemble flowsheet objects, fix inlet
variables, call an external NLP solver, and assert numeric results in
tagged testing cells.  The embedding below transcribes the notebook
scripts (configuration, `fix` calls, testing-cell assertions) and
models the external framework's documented behaviour (degrees-of-freedom
accounting, mixer balance equations, momentum-mixing policies, port
naming, block-local solves) from the spec and the notebooks' own
narrative, since the framework's code is not part of this repository.
All numeric values are rationals; `pytest.approx(x, abs=t)` is absolute
distance at most `t`.
-/

namespace S2P

/-- Semantics of `pytest.approx(expected, abs=tol)` applied to `actual`:
the absolute difference is at most the tolerance. -/
def approx (actual expected tol : ℚ) : Prop := |actual - expected| ≤ tol

/-- Boolean form of `approx`, used when transcribing testing cells whose
asserts evaluate to pass/fail. -/
def approxB (actual expected tol : ℚ) : Bool := decide (|actual - expected| ≤ tol)

instance (a e t : ℚ) : Decidable (approx a e t) := by
  unfold approx; infer_instance

/-! ## Mixer notebook: configuration and variable state

From `mixer_testing.ipynb`.  `mixer_1` is built with `num_inlets=2` and
`momentum_mixing_type=MomentumMixingType.minimize`; `mixer_2` with
`inlet_list=["benzene_inlet","toluene_inlet"]` and
`momentum_mixing_type=MomentumMixingType.equality`. -/

/-- The `MomentumMixingType` options used in the notebook. -/
inductive MomentumMixingType where
  | minimize
  | equality
deriving DecidableEq

/-- Modelled from the spec: when only `num_inlets=n` is given, the Mixer
names its inlets `inlet_1`, `inlet_2`, and so on (the notebook: "the
inlets are named as 'inlet_1', 'inlet_2' and so on depending on the
number of inlets specified"). -/
def inletNamesFromNum (n : Nat) : List String :=
  (List.range n).map (fun i => "inlet_" ++ toString (i + 1))

/-- Mixer configuration: the list of inlet port names and the momentum
mixing policy.  `num_inlets=n` yields `inletNamesFromNum n`; an explicit
`inlet_list` yields that list. -/
structure MixerConfig where
  inlet_names : List String
  momentum_mixing_type : MomentumMixingType

/-- `Mixer(num_inlets=n, momentum_mixing_type=t)`. -/
def mixerFromNumInlets (n : Nat) (t : MomentumMixingType) : MixerConfig :=
  { inlet_names := inletNamesFromNum n, momentum_mixing_type := t }

/-- `Mixer(inlet_list=l, momentum_mixing_type=t)`. -/
def mixerFromInletList (l : List String) (t : MomentumMixingType) : MixerConfig :=
  { inlet_names := l, momentum_mixing_type := t }

/-- The specification variables of one mixer inlet under the BTX ideal
liquid property package, exactly the five quantities the notebook fixes
per inlet: molar flow, the two component mole fractions, temperature and
pressure.  `some v` means the variable has been fixed at `v`. -/
structure InletState where
  flow_mol : Option ℚ
  frac_benzene : Option ℚ
  frac_toluene : Option ℚ
  temperature : Option ℚ
  pressure : Option ℚ
deriving DecidableEq

/-- A freshly constructed inlet: nothing fixed. -/
def InletState.unset : InletState := ⟨none, none, none, none, none⟩

/-- Number of fixed specification variables of an inlet. -/
def InletState.fixedCount (s : InletState) : Nat :=
  (if s.flow_mol.isSome then 1 else 0) +
  (if s.frac_benzene.isSome then 1 else 0) +
  (if s.frac_toluene.isSome then 1 else 0) +
  (if s.temperature.isSome then 1 else 0) +
  (if s.pressure.isSome then 1 else 0)

/-- A mixer block: its configuration and the state of each named inlet. -/
structure MixerBlock where
  config : MixerConfig
  inlets : List (String × InletState)

/-- A mixer as just instantiated: each configured inlet unset. -/
def MixerBlock.ofConfig (c : MixerConfig) : MixerBlock :=
  { config := c, inlets := c.inlet_names.map (fun nm => (nm, InletState.unset)) }

/-- Apply an update to the inlet with the given port name. -/
def MixerBlock.on (b : MixerBlock) (nm : String)
    (f : InletState → InletState) : MixerBlock :=
  { b with inlets := b.inlets.map (fun p => if p.1 = nm then (p.1, f p.2) else p) }

/-- `<port>.flow_mol.fix(v)`. -/
def MixerBlock.fixFlow (b : MixerBlock) (nm : String) (v : ℚ) : MixerBlock :=
  b.on nm (fun s => { s with flow_mol := some v })

/-- `<port>.mole_frac_comp[0, "benzene"].fix(v)`. -/
def MixerBlock.fixFracBenzene (b : MixerBlock) (nm : String) (v : ℚ) : MixerBlock :=
  b.on nm (fun s => { s with frac_benzene := some v })

/-- `<port>.mole_frac_comp[0, "toluene"].fix(v)`. -/
def MixerBlock.fixFracToluene (b : MixerBlock) (nm : String) (v : ℚ) : MixerBlock :=
  b.on nm (fun s => { s with frac_toluene := some v })

/-- `<port>.temperature.fix(v)`. -/
def MixerBlock.fixTemperature (b : MixerBlock) (nm : String) (v : ℚ) : MixerBlock :=
  b.on nm (fun s => { s with temperature := some v })

/-- `<port>.pressure.fix(v)`. -/
def MixerBlock.fixPressure (b : MixerBlock) (nm : String) (v : ℚ) : MixerBlock :=
  b.on nm (fun s => { s with pressure := some v })

/-- Modelled from the spec (glossary: "Degrees of freedom: count of
unknowns minus constraints in the assembled equation system, computed by
an external utility").  For a mixer, the free unknowns are the unfixed
inlet specification variables; `equality` momentum mixing adds one extra
independent constraint relative to `minimize` (the notebook: the DOF
"dropped by 1 to 9 ... because we selected `MomentumMixingType.equality`
which basically adds a constraint that equates the pressure between all
inlets and the outlet"). -/
def MixerBlock.dof (b : MixerBlock) : Int :=
  (b.inlets.map (fun p => (5 : Int) - p.2.fixedCount)).sum -
    (match b.config.momentum_mixing_type with
      | .minimize => 0
      | .equality => 1)

/-! ## Mixer notebook: the Case 1 and Case 2 scripts -/

/-- `m.fs.mixer_1 = Mixer(property_package=..., num_inlets=2,
momentum_mixing_type=MomentumMixingType.minimize)`. -/
def mixer_1_created : MixerBlock :=
  MixerBlock.ofConfig (mixerFromNumInlets 2 .minimize)

/-- The Case 1 "Fix the inlet conditions" cell: the benzene stream on
`inlet_1` (100 mol/s, fractions 1/0, 101325 Pa, 353 K) and the toluene
stream on `inlet_2` (100 mol/s, fractions 0/1, 202650 Pa, 356 K). -/
def mixer_1_after_fix : MixerBlock :=
  ((((((((((mixer_1_created.fixFlow "inlet_1" 100).fixFracBenzene
      "inlet_1" 1).fixFracToluene "inlet_1" 0).fixPressure "inlet_1"
      101325).fixTemperature "inlet_1" 353).fixFlow "inlet_2"
      100).fixFracBenzene "inlet_2" 0).fixFracToluene "inlet_2"
      1).fixPressure "inlet_2" 202650).fixTemperature "inlet_2" 356)

/-- `m.fs.mixer_2 = Mixer(property_package=...,
inlet_list=["benzene_inlet","toluene_inlet"],
momentum_mixing_type=MomentumMixingType.equality)`. -/
def mixer_2_created : MixerBlock :=
  MixerBlock.ofConfig (mixerFromInletList ["benzene_inlet", "toluene_inlet"] .equality)

/-- The Case 2 "Fix the stream inlet conditions" cell: note that pressure
is fixed only on `benzene_inlet` (101325 Pa); `toluene_inlet` gets no
pressure fix. -/
def mixer_2_after_fix : MixerBlock :=
  (((((((((mixer_2_created.fixFlow "benzene_inlet" 100).fixFracBenzene
      "benzene_inlet" 1).fixFracToluene "benzene_inlet" 0).fixPressure
      "benzene_inlet" 101325).fixTemperature "benzene_inlet"
      353).fixFlow "toluene_inlet" 100).fixFracBenzene "toluene_inlet"
      0).fixFracToluene "toluene_inlet" 1).fixTemperature
      "toluene_inlet" 356)

/-! ## Heat-exchanger notebook: configuration and variable state -/

/-- The `delta_temperature_callback` options of the HeatExchanger model;
the notebook imports and supplies `delta_temperature_amtd_callback`. -/
inductive DeltaTCallback where
  | amtd
  | lmtd
deriving DecidableEq

/-- Shell-side (IAPWS steam package) inlet specification variables,
exactly the three quantities the notebook fixes on `shell_inlet`:
molar flow, pressure and molar enthalpy. -/
structure ShellInletState where
  flow_mol : Option ℚ
  pressure : Option ℚ
  enth_mol : Option ℚ
deriving DecidableEq

def ShellInletState.unset : ShellInletState := ⟨none, none, none⟩

def ShellInletState.fixedCount (s : ShellInletState) : Nat :=
  (if s.flow_mol.isSome then 1 else 0) +
  (if s.pressure.isSome then 1 else 0) +
  (if s.enth_mol.isSome then 1 else 0)

/-- Tube-side (BT ideal package) inlet specification variables, exactly
the five quantities the notebook fixes on `tube_inlet`. -/
structure TubeInletState where
  flow_mol : Option ℚ
  frac_benzene : Option ℚ
  frac_toluene : Option ℚ
  pressure : Option ℚ
  temperature : Option ℚ
deriving DecidableEq

def TubeInletState.unset : TubeInletState := ⟨none, none, none, none, none⟩

def TubeInletState.fixedCount (s : TubeInletState) : Nat :=
  (if s.flow_mol.isSome then 1 else 0) +
  (if s.frac_benzene.isSome then 1 else 0) +
  (if s.frac_toluene.isSome then 1 else 0) +
  (if s.pressure.isSome then 1 else 0) +
  (if s.temperature.isSome then 1 else 0)

/-- The heat-exchanger block as the notebook drives it: side-naming and
callback configuration, the inlet specification variables, the two
design variables `area` and `overall_heat_transfer_coefficient`, and the
shell outlet molar enthalpy which Option 2 fixes (fixing an outlet
variable adds a constraint to the square system). -/
structure HeatExchangerBlock where
  hot_side_name : String
  cold_side_name : String
  delta_temperature_callback : DeltaTCallback
  shell_inlet : ShellInletState
  tube_inlet : TubeInletState
  area : Option ℚ
  overall_heat_transfer_coefficient : Option ℚ
  shell_outlet_enth_mol : Option ℚ
deriving DecidableEq

/-- Modelled from the spec: the heat exchanger exposes its ports under
the configured side names (`hot_side_name="shell"`, `cold_side_name=
"tube"` give `shell_inlet`/`tube_inlet`, the names the notebook then
fixes variables on). -/
def HeatExchangerBlock.inletPortNames (b : HeatExchangerBlock) : List String :=
  [b.hot_side_name ++ "_inlet", b.cold_side_name ++ "_inlet"]

/-- Modelled from the spec (glossary): degrees of freedom of the
heat-exchanger flowsheet = unfixed specification variables (three
shell-inlet ones, five tube-inlet ones, area, overall heat transfer
coefficient) minus the constraints added by fixing outlet variables. -/
def HeatExchangerBlock.dof (b : HeatExchangerBlock) : Int :=
  ((3 : Int) - b.shell_inlet.fixedCount) +
  ((5 : Int) - b.tube_inlet.fixedCount) +
  (if b.area.isSome then 0 else 1) +
  (if b.overall_heat_transfer_coefficient.isSome then 0 else 1) -
  (if b.shell_outlet_enth_mol.isSome then 1 else 0)

/-! ## Heat-exchanger notebook: the script

The enthalpy values `htpx(450 K, 101325 Pa)` and `htpx(360 K, 101325 Pa)`
are produced by the external IAPWS package; the script is parametrised
over them. -/

/-- `m.fs.heat_exchanger = HeatExchanger(delta_temperature_callback=
delta_temperature_amtd_callback, hot_side_name="shell",
cold_side_name="tube", shell={...}, tube={...})`. -/
def heat_exchanger_created : HeatExchangerBlock :=
  { hot_side_name := "shell"
    cold_side_name := "tube"
    delta_temperature_callback := .amtd
    shell_inlet := ShellInletState.unset
    tube_inlet := TubeInletState.unset
    area := none
    overall_heat_transfer_coefficient := none
    shell_outlet_enth_mol := none }

/-- The shell-inlet fix cell: flow 100 mol/s, pressure 101325 Pa,
enthalpy `h450 = htpx(450 K, 101325 Pa)`. -/
def hx_after_shell_fix (h450 : ℚ) : HeatExchangerBlock :=
  { heat_exchanger_created with
      shell_inlet := { flow_mol := some 100, pressure := some 101325,
                       enth_mol := some h450 } }

/-- The tube-inlet fix cell: flow 250 mol/s, benzene fraction 0.4,
toluene fraction 0.6, pressure 101325 Pa, temperature 350 K. -/
def hx_after_tube_fix (h450 : ℚ) : HeatExchangerBlock :=
  { hx_after_shell_fix h450 with
      tube_inlet := { flow_mol := some 250, frac_benzene := some (4/10),
                      frac_toluene := some (6/10), pressure := some 101325,
                      temperature := some 350 } }

/-- Option 1: `area.fix(50)` and
`overall_heat_transfer_coefficient[0].fix(500)`. -/
def hx_option1 (h450 : ℚ) : HeatExchangerBlock :=
  { hx_after_tube_fix h450 with
      area := some 50, overall_heat_transfer_coefficient := some 500 }

/-- Option 2: `area.unfix()` then
`shell_outlet.enth_mol.fix(htpx(360 K, 101325 Pa))`. -/
def hx_option2 (h450 h360 : ℚ) : HeatExchangerBlock :=
  { hx_option1 h450 with
      area := none, shell_outlet_enth_mol := some h360 }

/-! ## Solver results and the solved mixer state

The solver itself (ipopt) is external; a solve produces a result object
carrying a termination condition and a solver status, and leaves the
model variables at values satisfying the unit model's equations. -/

/-- The `pyomo.opt.TerminationCondition` values relevant to the
notebooks; `other` stands for all non-optimal outcomes. -/
inductive TerminationCondition where
  | optimal
  | infeasible
  | other
deriving DecidableEq

/-- The `pyomo.opt.SolverStatus` values relevant to the notebooks;
`error` stands for all non-ok outcomes. -/
inductive SolverStatus where
  | ok
  | warning
  | error
deriving DecidableEq

/-- A solver result object as read by the testing cells. -/
structure SolverResult where
  termination_condition : TerminationCondition
  status : SolverStatus
deriving DecidableEq

/-- The variable values of a solved two-inlet mixer that the notebook's
testing cells read back: outlet port values, the liquid-phase molar
enthalpies of the two inlet state blocks and of the mixed state, and
(for Case 2) the solved value of the unfixed toluene inlet pressure. -/
structure MixerSolvedState where
  outlet_flow_mol : ℚ
  outlet_frac_benzene : ℚ
  outlet_frac_toluene : ℚ
  outlet_temperature : ℚ
  outlet_pressure : ℚ
  inlet1_enth_mol_liq : ℚ
  inlet2_enth_mol_liq : ℚ
  mixed_enth_mol_liq : ℚ
  inlet1_pressure : ℚ
  inlet2_pressure : ℚ

/-- The inlet stream data feeding the mixer equations: molar flow,
component mole fractions and pressure, with the liquid molar enthalpy
delivered by the (external) property package. -/
structure StreamData where
  flow_mol : ℚ
  frac_benzene : ℚ
  frac_toluene : ℚ
  pressure : ℚ
  enth_mol_liq : ℚ

/-- Modelled from the spec: the steady-state equations of the two-inlet
Mixer unit model that a converged solve satisfies — total and component
material balances, the liquid-phase energy balance, and the momentum
mixing policy (the notebook: "When the momentum mixing type is set to
'minimize', the mixed stream pressure takes the minimum value among all
inlet stream pressures.  When the momentum mixing type is set to
'equality', the mixed stream, along with all inlet streams have the same
value of pressure."). -/
def isMixerSolution (t : MomentumMixingType) (in1 in2 : StreamData)
    (s : MixerSolvedState) : Prop :=
  s.outlet_flow_mol = in1.flow_mol + in2.flow_mol ∧
  s.outlet_flow_mol * s.outlet_frac_benzene =
    in1.flow_mol * in1.frac_benzene + in2.flow_mol * in2.frac_benzene ∧
  s.outlet_flow_mol * s.outlet_frac_toluene =
    in1.flow_mol * in1.frac_toluene + in2.flow_mol * in2.frac_toluene ∧
  s.outlet_flow_mol * s.mixed_enth_mol_liq =
    in1.flow_mol * in1.enth_mol_liq + in2.flow_mol * in2.enth_mol_liq ∧
  s.inlet1_enth_mol_liq = in1.enth_mol_liq ∧
  s.inlet2_enth_mol_liq = in2.enth_mol_liq ∧
  s.inlet1_pressure = in1.pressure ∧
  s.inlet2_pressure = in2.pressure ∧
  (match t with
    | .minimize => s.outlet_pressure = min in1.pressure in2.pressure
    | .equality =>
        s.outlet_pressure = in1.pressure ∧ in1.pressure = in2.pressure)

/-- The Case 1 benzene stream as fixed on `inlet_1`, with its liquid
molar enthalpy `h1` supplied by the property package at 353 K. -/
def case1_stream1 (h1 : ℚ) : StreamData :=
  { flow_mol := 100, frac_benzene := 1, frac_toluene := 0,
    pressure := 101325, enth_mol_liq := h1 }

/-- The Case 1 toluene stream as fixed on `inlet_2`, with its liquid
molar enthalpy `h2` supplied by the property package at 356 K. -/
def case1_stream2 (h2 : ℚ) : StreamData :=
  { flow_mol := 100, frac_benzene := 0, frac_toluene := 1,
    pressure := 202650, enth_mol_liq := h2 }

/-- The Case 2 benzene stream as fixed on `benzene_inlet` (pressure
fixed at 101325 Pa). -/
def case2_stream1 (h1 : ℚ) : StreamData :=
  { flow_mol := 100, frac_benzene := 1, frac_toluene := 0,
    pressure := 101325, enth_mol_liq := h1 }

/-- The Case 2 toluene stream as fixed on `toluene_inlet`: its pressure
`pt` is not fixed and is determined by the solve. -/
def case2_stream2 (pt h2 : ℚ) : StreamData :=
  { flow_mol := 100, frac_benzene := 0, frac_toluene := 1,
    pressure := pt, enth_mol_liq := h2 }

/-! ## Mixer notebook: testing cells -/

/-- The Case 1 solver-status testing cell: `assert
result.solver.termination_condition == TerminationCondition.optimal`
and `assert result.solver.status == SolverStatus.ok`.  `true` means
every assert passed; `false` means the cell raises `AssertionError`. -/
def case1_status_cell (result : SolverResult) : Bool :=
  (result.termination_condition == .optimal) && (result.status == .ok)

/-- The Case 2 solver-status testing cell, identical asserts applied to
the Case 2 solve's result. -/
def case2_status_cell (result : SolverResult) : Bool :=
  (result.termination_condition == .optimal) && (result.status == .ok)

/-- The quantity `total_enthalpy_out - total_enthalpy_in1 -
total_enthalpy_in2` computed by the Energy Balance Validation cell,
with `molflow_1 = molflow_2 = 100` as read back from the fixed inlets. -/
def energyBalanceResidual (s : MixerSolvedState) : ℚ :=
  s.outlet_flow_mol * s.mixed_enth_mol_liq -
    100 * s.inlet1_enth_mol_liq - 100 * s.inlet2_enth_mol_liq

/-- The Case 1 "Check results" testing cell, assert by assert:
flow 200 ± 1e-3, benzene and toluene fractions 0.5 ± 1e-3, temperature
354.61 ± 1e-2, pressure 101325 ± 1, enthalpy residual 0 ± 1e-2. -/
def case1_results_cell (s : MixerSolvedState) : Bool :=
  approxB s.outlet_flow_mol 200 (1/1000) &&
  approxB s.outlet_frac_benzene (5/10) (1/1000) &&
  approxB s.outlet_frac_toluene (5/10) (1/1000) &&
  approxB s.outlet_temperature (35461/100) (1/100) &&
  approxB s.outlet_pressure 101325 1 &&
  approxB (energyBalanceResidual s) 0 (1/100)

/-- The Case 2 "Check results" testing cell: flow 200 ± 1e-2, fractions
0.5 ± 1e-3, temperature 354.61 ± 1e-2, pressure 101325 ± 1. -/
def case2_results_cell (s : MixerSolvedState) : Bool :=
  approxB s.outlet_flow_mol 200 (1/100) &&
  approxB s.outlet_frac_benzene (5/10) (1/1000) &&
  approxB s.outlet_frac_toluene (5/10) (1/1000) &&
  approxB s.outlet_temperature (35461/100) (1/100) &&
  approxB s.outlet_pressure 101325 1

/-! ## Heat-exchanger notebook: testing cells and run environment -/

/-- The heat-exchanger variable values read by the testing cells: the
shell- and tube-side outlet temperatures and the (possibly solved-for)
heat transfer area. -/
structure HXSolvedState where
  shell_out_temperature : ℚ
  tube_out_temperature : ℚ
  area : ℚ

/-- The notebook's variable bindings across the two solves: the Option 1
cell runs `solve_status = opt.solve(m)` and the Option 2 cell runs
`result = opt.solve(m)`; both bindings stay in scope afterwards. -/
structure HXRunEnv where
  solve_status : SolverResult
  result : SolverResult
  option1_solved : HXSolvedState
  option2_solved : HXSolvedState

/-- The Option 1 testing cell: status asserts on `solve_status`, then
shell outlet temperature 373.13 ± 1e-2 and tube outlet temperature
369.24 ± 1e-2. -/
def hx_option1_cell (env : HXRunEnv) : Bool :=
  (env.solve_status.termination_condition == .optimal) &&
  (env.solve_status.status == .ok) &&
  approxB env.option1_solved.shell_out_temperature (37313/100) (1/100) &&
  approxB env.option1_solved.tube_out_temperature (36924/100) (1/100)

/-- The Option 2 testing cell as written in the notebook: its status
asserts read `solve_status` (the Option 1 binding), not `result` (the
Option 2 binding); then area 200.26 ± 1e-2 and tube outlet temperature
371.27 ± 1e-2 on the post-Option-2 values. -/
def hx_option2_cell (env : HXRunEnv) : Bool :=
  (env.solve_status.termination_condition == .optimal) &&
  (env.solve_status.status == .ok) &&
  approxB env.option2_solved.area (20026/100) (1/100) &&
  approxB env.option2_solved.tube_out_temperature (37127/100) (1/100)

/-! ## Mixer notebook: solve targets and the frame effect of a block solve -/

/-- What a solve call is invoked on: the whole `ConcreteModel` `m`
(Case 1: `opt.solve(m, tee=True)`) or the `m.fs.mixer_2` subblock
(Case 2: `opt.solve(m.fs.mixer_2, tee=True)`). -/
inductive SolveTarget where
  | wholeModel
  | mixer2Block
deriving DecidableEq

/-- The target of the Case 1 solve call. -/
def case1_solve_target : SolveTarget := .wholeModel

/-- The target of the Case 2 solve call. -/
def case2_solve_target : SolveTarget := .mixer2Block

/-- The mutable variable values of the flowsheet, split by unit block. -/
structure FlowsheetVars where
  mixer_1 : MixerSolvedState
  mixer_2 : MixerSolvedState

/-- Modelled from the spec: a Pyomo solve invoked on a block updates the
variables of that block only — solving `m` may move every unit's
variables, while solving `m.fs.mixer_2` replaces only `mixer_2`'s values
and leaves the rest of the flowsheet untouched. -/
def applySolve (target : SolveTarget) (sol : FlowsheetVars)
    (s : FlowsheetVars) : FlowsheetVars :=
  match target with
  | .wholeModel => sol
  | .mixer2Block => { s with mixer_2 := sol.mixer_2 }

/-- Count of inlets whose pressure has been fixed. -/
def MixerBlock.pressureFixedCount (b : MixerBlock) : Nat :=
  (b.inlets.filter (fun p => p.2.pressure.isSome)).length

/-! ## Claims -/

/-- C1: in both notebooks the degrees-of-freedom count equals the
asserted literals — 10 immediately after the unit model is instantiated,
and 0 after all inlet conditions (plus, for the heat exchanger, area and
overall heat transfer coefficient) are fixed. -/
theorem C1_dof_assertions :
    mixer_1_created.dof = 10 ∧ mixer_1_after_fix.dof = 0 ∧
    heat_exchanger_created.dof = 10 ∧
    ∀ h450 : ℚ, (hx_option1 h450).dof = 0 := by
  refine ⟨by decide, by decide, by decide, fun h450 => ?_⟩
  simp [hx_option1, hx_after_tube_fix, hx_after_shell_fix,
    heat_exchanger_created, HeatExchangerBlock.dof,
    ShellInletState.fixedCount, TubeInletState.fixedCount]

/-- C8: the configuration options determine the public port names —
`num_inlets=2` yields inlets named `inlet_1` and `inlet_2`, an explicit
`inlet_list` yields exactly those names, and the heat exchanger
configured with `hot_side_name="shell"`, `cold_side_name="tube"` exposes
`shell_inlet`/`tube_inlet` ports and carries the supplied
`delta_temperature_amtd_callback`. -/
theorem C8_port_names :
    (mixerFromNumInlets 2 .minimize).inlet_names = ["inlet_1", "inlet_2"] ∧
    mixer_1_created.inlets.map Prod.fst = ["inlet_1", "inlet_2"] ∧
    (∀ (l : List String) (t : MomentumMixingType),
      (mixerFromInletList l t).inlet_names = l) ∧
    mixer_2_created.inlets.map Prod.fst = ["benzene_inlet", "toluene_inlet"] ∧
    heat_exchanger_created.inletPortNames = ["shell_inlet", "tube_inlet"] ∧
    heat_exchanger_created.delta_temperature_callback = .amtd := by
  exact ⟨by decide, by decide, fun l t => rfl, by decide, by decide, rfl⟩

/-- C10: the Case 2 solve is invoked on the `m.fs.mixer_2` subblock
only, unlike the Case 1 solve which targets the whole model, so the
Case 2 solve leaves every `mixer_1` variable value unchanged (while
replacing `mixer_2`'s values with the solver's). -/
theorem C10_case2_solve_frame (sol s : FlowsheetVars) :
    case1_solve_target = .wholeModel ∧
    case2_solve_target = .mixer2Block ∧
    (applySolve case2_solve_target sol s).mixer_1 = s.mixer_1 ∧
    (applySolve case2_solve_target sol s).mixer_2 = sol.mixer_2 :=
  ⟨rfl, rfl, rfl, rfl⟩

/-- C2: in every solved mixer case (Case 1 minimize, Case 2 equality,
both with a 100 mol/s pure-benzene inlet and a 100 mol/s pure-toluene
inlet) the mixed outlet mole fractions of benzene and toluene are each
0.5 within 1e-3. -/
theorem C2_outlet_composition (h1 h2 pt : ℚ) (s1 s2 : MixerSolvedState)
    (hs1 : isMixerSolution .minimize (case1_stream1 h1) (case1_stream2 h2) s1)
    (hs2 : isMixerSolution .equality (case2_stream1 h1) (case2_stream2 pt h2) s2) :
    (approx s1.outlet_frac_benzene (5/10) (1/1000) ∧
     approx s1.outlet_frac_toluene (5/10) (1/1000)) ∧
    (approx s2.outlet_frac_benzene (5/10) (1/1000) ∧
     approx s2.outlet_frac_toluene (5/10) (1/1000)) := by
  obtain ⟨hf1, hb1, ht1, -, -, -, -, -, -⟩ := hs1
  obtain ⟨hf2, hb2, ht2, -, -, -, -, -, -⟩ := hs2
  simp only [case1_stream1, case1_stream2, case2_stream1, case2_stream2]
    at hf1 hb1 ht1 hf2 hb2 ht2
  rw [hf1] at hb1 ht1
  rw [hf2] at hb2 ht2
  have e1 : s1.outlet_frac_benzene = 1/2 := by linarith
  have e2 : s1.outlet_frac_toluene = 1/2 := by linarith
  have e3 : s2.outlet_frac_benzene = 1/2 := by linarith
  have e4 : s2.outlet_frac_toluene = 1/2 := by linarith
  refine ⟨⟨?_, ?_⟩, ?_, ?_⟩ <;>
    simp [approx, e1, e2, e3, e4] <;> norm_num

/-- Witness for C2 at a concrete solved state for each case. -/
def c2w1 : MixerSolvedState :=
  { outlet_flow_mol := 200, outlet_frac_benzene := 1/2,
    outlet_frac_toluene := 1/2, outlet_temperature := 35461/100,
    outlet_pressure := 101325, inlet1_enth_mol_liq := 0,
    inlet2_enth_mol_liq := 0, mixed_enth_mol_liq := 0,
    inlet1_pressure := 101325, inlet2_pressure := 202650 }

/-- Witness solved state for the Case 2 (equality) mixer. -/
def c2w2 : MixerSolvedState :=
  { c2w1 with outlet_pressure := 101325, inlet2_pressure := 101325 }

/-- The Case 1 witness state satisfies the minimize-mixer equations with
zero inlet enthalpies. -/
theorem c2w1_solution :
    isMixerSolution .minimize (case1_stream1 0) (case1_stream2 0) c2w1 := by
  refine ⟨?_, ?_, ?_, ?_, ?_, ?_, ?_, ?_, ?_⟩ <;>
    simp [c2w1, case1_stream1, case1_stream2] <;> norm_num

/-- The Case 2 witness state satisfies the equality-mixer equations with
zero inlet enthalpies and solved toluene inlet pressure 101325 Pa. -/
theorem c2w2_solution :
    isMixerSolution .equality (case2_stream1 0) (case2_stream2 101325 0) c2w2 := by
  refine ⟨?_, ?_, ?_, ?_, ?_, ?_, ?_, ?_, ?_, ?_⟩ <;>
    simp [c2w1, c2w2, case2_stream1, case2_stream2] <;> norm_num

/-- Witness for C2: the composition bounds hold at the concrete solved
states. -/
theorem C2_outlet_composition_witness :
    (approx c2w1.outlet_frac_benzene (5/10) (1/1000) ∧
     approx c2w1.outlet_frac_toluene (5/10) (1/1000)) ∧
    (approx c2w2.outlet_frac_benzene (5/10) (1/1000) ∧
     approx c2w2.outlet_frac_toluene (5/10) (1/1000)) :=
  C2_outlet_composition 0 0 101325 c2w1 c2w2 c2w1_solution c2w2_solution

/-- C3: for the solved Case 1 mixer, the notebook's energy-balance
residual (outlet molar flow times liquid molar enthalpy minus the two
inlets' total enthalpy flows) is 0 within 1e-2. -/
theorem C3_energy_balance (h1 h2 : ℚ) (s : MixerSolvedState)
    (hs : isMixerSolution .minimize (case1_stream1 h1) (case1_stream2 h2) s) :
    approx (energyBalanceResidual s) 0 (1/100) := by
  obtain ⟨-, -, -, he, he1, he2, -, -, -⟩ := hs
  simp only [case1_stream1, case1_stream2] at he he1 he2
  simp only [approx, energyBalanceResidual, he, he1, he2]
  norm_num

/-- Witness solved state for C3, reusing the Case 1 equations at
nonzero inlet enthalpies. -/
def c3w : MixerSolvedState :=
  { c2w1 with
      inlet1_enth_mol_liq := 30
      inlet2_enth_mol_liq := 50
      mixed_enth_mol_liq := 40 }

/-- The C3 witness state satisfies the minimize-mixer equations with
inlet enthalpies 30 and 50 J/mol. -/
theorem c3w_solution :
    isMixerSolution .minimize (case1_stream1 30) (case1_stream2 50) c3w := by
  refine ⟨?_, ?_, ?_, ?_, ?_, ?_, ?_, ?_, ?_⟩ <;>
    simp [c3w, c2w1, case1_stream1, case1_stream2] <;> norm_num

/-- Witness for C3: the residual bound holds at the concrete solved
state. -/
theorem C3_energy_balance_witness :
    approx (energyBalanceResidual c3w) 0 (1/100) :=
  C3_energy_balance 30 50 c3w c3w_solution

/-- C4: in both cases, a solved state passing the notebook's results
testing cell has outlet temperature 354.61 K within 1e-2 and outlet
pressure 101325 Pa within 1; and under the Case 1 `minimize` policy the
mixer equations force the mixed pressure to the minimum of the inlet
pressures 101325 Pa and 202650 Pa, which is 101325 Pa. -/
theorem C4_outlet_temperature_pressure (h1 h2 : ℚ)
    (s1 s2 s3 : MixerSolvedState)
    (hc1 : case1_results_cell s1 = true)
    (hc2 : case2_results_cell s2 = true)
    (hs3 : isMixerSolution .minimize (case1_stream1 h1) (case1_stream2 h2) s3) :
    (approx s1.outlet_temperature (35461/100) (1/100) ∧
     approx s1.outlet_pressure 101325 1) ∧
    (approx s2.outlet_temperature (35461/100) (1/100) ∧
     approx s2.outlet_pressure 101325 1) ∧
    s3.outlet_pressure = min (101325 : ℚ) 202650 ∧
    s3.outlet_pressure = 101325 := by
  simp only [case1_results_cell, case2_results_cell, approxB,
    Bool.and_eq_true, decide_eq_true_eq] at hc1 hc2
  obtain ⟨⟨⟨⟨⟨-, -⟩, -⟩, hT1⟩, hP1⟩, -⟩ := hc1
  obtain ⟨⟨⟨⟨-, -⟩, -⟩, hT2⟩, hP2⟩ := hc2
  obtain ⟨-, -, -, -, -, -, -, -, hmin⟩ := hs3
  simp only [case1_stream1, case1_stream2] at hmin
  refine ⟨⟨hT1, hP1⟩, ⟨hT2, hP2⟩, hmin, ?_⟩
  rw [hmin]
  norm_num

/-- Witness solved state passing the Case 1 results testing cell. -/
def c4w1 : MixerSolvedState := c2w1

/-- Witness solved state passing the Case 2 results testing cell. -/
def c4w2 : MixerSolvedState := c2w2

/-- Witness solved state for the Case 1 mixer equations in C4. -/
def c4w3 : MixerSolvedState := c2w1

/-- Witness for C4 at concrete solved states. -/
theorem C4_outlet_temperature_pressure_witness :
    (approx c4w1.outlet_temperature (35461/100) (1/100) ∧
     approx c4w1.outlet_pressure 101325 1) ∧
    (approx c4w2.outlet_temperature (35461/100) (1/100) ∧
     approx c4w2.outlet_pressure 101325 1) ∧
    c4w3.outlet_pressure = min (101325 : ℚ) 202650 ∧
    c4w3.outlet_pressure = 101325 :=
  C4_outlet_temperature_pressure 0 0 c4w1 c4w2 c4w3
    (by simp only [case1_results_cell, approxB, Bool.and_eq_true,
          decide_eq_true_eq]
        norm_num [c4w1, c2w1, energyBalanceResidual])
    (by simp only [case2_results_cell, approxB, Bool.and_eq_true,
          decide_eq_true_eq]
        norm_num [c4w2, c2w2, c2w1])
    (by refine ⟨?_, ?_, ?_, ?_, ?_, ?_, ?_, ?_, ?_⟩ <;>
      simp [c4w3, c2w1, case1_stream1, case1_stream2] <;> norm_num)

/-- C7: the `equality` momentum-mixing configuration has one fewer
initial degree of freedom than the `minimize` one (9 instead of 10),
the Case 2 fix cell fixes pressure on exactly one inlet, and the
equality-policy mixer equations force the solved outlet pressure to the
single fixed inlet pressure 101325 Pa (hence within 1 of it). -/
theorem C7_equality_momentum_mixing (h1 h2 pt : ℚ) (s : MixerSolvedState)
    (hs : isMixerSolution .equality (case2_stream1 h1) (case2_stream2 pt h2) s) :
    mixer_2_created.dof = 9 ∧
    mixer_1_created.dof = 10 ∧
    mixer_2_created.dof = mixer_1_created.dof - 1 ∧
    mixer_2_after_fix.pressureFixedCount = 1 ∧
    s.outlet_pressure = 101325 ∧
    approx s.outlet_pressure 101325 1 := by
  obtain ⟨-, -, -, -, -, -, -, -, hPout, -⟩ := hs
  simp only [case2_stream1] at hPout
  exact ⟨by decide, by decide, by decide, by decide, hPout,
    by simp [approx, hPout]⟩

/-- Witness solved state for the Case 2 equality mixer in C7. -/
def c7w : MixerSolvedState := c2w2

/-- Witness for C7 at a concrete solved state. -/
theorem C7_equality_momentum_mixing_witness :
    mixer_2_created.dof = 9 ∧
    mixer_1_created.dof = 10 ∧
    mixer_2_created.dof = mixer_1_created.dof - 1 ∧
    mixer_2_after_fix.pressureFixedCount = 1 ∧
    c7w.outlet_pressure = 101325 ∧
    approx c7w.outlet_pressure 101325 1 :=
  C7_equality_momentum_mixing 0 0 101325 c7w
    (by refine ⟨?_, ?_, ?_, ?_, ?_, ?_, ?_, ?_, ?_, ?_⟩ <;>
      simp [c7w, c2w2, c2w1, case2_stream1, case2_stream2] <;> norm_num)

/-- C5: the Option 1 script fixes area at 50 m2 and the overall heat
transfer coefficient at 500 W/m2/K, and a run passing the Option 1
testing cell has shell outlet temperature 373.13 K and tube outlet
temperature 369.24 K within 1e-2; the Option 2 script unfixes the area
and fixes the shell outlet molar enthalpy (to the 360 K, 101325 Pa
value), and a run passing the Option 2 testing cell has solved area
200.26 m2 and tube outlet temperature 371.27 K within 1e-2. -/
theorem C5_heat_exchanger_results (h450 h360 : ℚ) (env : HXRunEnv)
    (hc1 : hx_option1_cell env = true)
    (hc2 : hx_option2_cell env = true) :
    (hx_option1 h450).area = some 50 ∧
    (hx_option1 h450).overall_heat_transfer_coefficient = some 500 ∧
    approx env.option1_solved.shell_out_temperature (37313/100) (1/100) ∧
    approx env.option1_solved.tube_out_temperature (36924/100) (1/100) ∧
    (hx_option2 h450 h360).area = none ∧
    (hx_option2 h450 h360).shell_outlet_enth_mol = some h360 ∧
    approx env.option2_solved.area (20026/100) (1/100) ∧
    approx env.option2_solved.tube_out_temperature (37127/100) (1/100) := by
  simp only [hx_option1_cell, hx_option2_cell, approxB, Bool.and_eq_true,
    decide_eq_true_eq] at hc1 hc2
  obtain ⟨⟨⟨-, -⟩, hsT⟩, htT⟩ := hc1
  obtain ⟨⟨⟨-, -⟩, hA⟩, htT2⟩ := hc2
  exact ⟨rfl, rfl, hsT, htT, rfl, rfl, hA, htT2⟩

/-- Witness run environment for C5: both testing cells pass. -/
def c5env : HXRunEnv :=
  { solve_status := ⟨.optimal, .ok⟩
    result := ⟨.optimal, .ok⟩
    option1_solved := ⟨37313/100, 36924/100, 50⟩
    option2_solved := ⟨360, 37127/100, 20026/100⟩ }

/-- Witness for C5 at a concrete run environment and enthalpy values. -/
theorem C5_heat_exchanger_results_witness :
    (hx_option1 0).area = some 50 ∧
    (hx_option1 0).overall_heat_transfer_coefficient = some 500 ∧
    approx c5env.option1_solved.shell_out_temperature (37313/100) (1/100) ∧
    approx c5env.option1_solved.tube_out_temperature (36924/100) (1/100) ∧
    (hx_option2 0 0).area = none ∧
    (hx_option2 0 0).shell_outlet_enth_mol = some 0 ∧
    approx c5env.option2_solved.area (20026/100) (1/100) ∧
    approx c5env.option2_solved.tube_out_temperature (37127/100) (1/100) :=
  C5_heat_exchanger_results 0 0 c5env
    (by simp only [hx_option1_cell, approxB, Bool.and_eq_true,
          decide_eq_true_eq, beq_iff_eq]
        norm_num [c5env])
    (by simp only [hx_option2_cell, approxB, Bool.and_eq_true,
          decide_eq_true_eq, beq_iff_eq]
        norm_num [c5env])

/-- C6: each of the three properly wired testing cells (mixer Case 1,
mixer Case 2, heat-exchanger Option 1) asserts that its solve's
termination condition is `optimal` and its status is `ok`, so a
non-converged solve makes the testing cell raise (evaluate to
`false`). -/
theorem C6_solver_status_asserts (result : SolverResult) (env : HXRunEnv)
    (hbad : result.termination_condition ≠ .optimal ∨ result.status ≠ .ok)
    (hbadhx : env.solve_status.termination_condition ≠ .optimal ∨
      env.solve_status.status ≠ .ok) :
    case1_status_cell result = false ∧
    case2_status_cell result = false ∧
    hx_option1_cell env = false := by
  refine ⟨?_, ?_, ?_⟩
  · rcases hbad with h | h <;> simp [case1_status_cell, h]
  · rcases hbad with h | h <;> simp [case2_status_cell, h]
  · rcases hbadhx with h | h <;> simp [hx_option1_cell, h]

/-- Witness run environment for C6: the heat-exchanger solve did not
converge. -/
def c6env : HXRunEnv :=
  { solve_status := ⟨.infeasible, .warning⟩
    result := ⟨.infeasible, .warning⟩
    option1_solved := ⟨0, 0, 0⟩
    option2_solved := ⟨0, 0, 0⟩ }

/-- Witness for C6 at a concrete non-converged solver result. -/
theorem C6_solver_status_asserts_witness :
    case1_status_cell ⟨.infeasible, .error⟩ = false ∧
    case2_status_cell ⟨.infeasible, .error⟩ = false ∧
    hx_option1_cell c6env = false :=
  C6_solver_status_asserts ⟨.infeasible, .error⟩ c6env
    (Or.inl (by decide)) (Or.inl (by decide))

/-- C9: the Option 2 testing cell's solver-status asserts read the
`solve_status` binding produced by the Option 1 solve, not the `result`
binding produced by the Option 2 solve: replacing the Option 2 solve's
result by any other result leaves the cell's outcome unchanged, and
the cell's passing implies only that the Option 1 solve was
optimal/ok. -/
theorem C9_option2_asserts_read_option1_status (env : HXRunEnv)
    (r2 : SolverResult)
    (hpass : hx_option2_cell env = true) :
    hx_option2_cell { env with result := r2 } = hx_option2_cell env ∧
    env.solve_status.termination_condition = .optimal ∧
    env.solve_status.status = .ok := by
  simp only [hx_option2_cell, Bool.and_eq_true, beq_iff_eq] at hpass
  exact ⟨rfl, hpass.1.1.1, hpass.1.1.2⟩

/-- Witness run environment for C9: the Option 1 solve was optimal/ok
while the Option 2 `result` binding is a non-converged result. -/
def c9env : HXRunEnv :=
  { solve_status := ⟨.optimal, .ok⟩
    result := ⟨.infeasible, .error⟩
    option1_solved := ⟨37313/100, 36924/100, 50⟩
    option2_solved := ⟨360, 37127/100, 20026/100⟩ }

/-- Witness for C9: swapping in a non-converged Option 2 result does
not change the cell's outcome. -/
theorem C9_option2_asserts_read_option1_status_witness :
    hx_option2_cell { c9env with result := ⟨.infeasible, .error⟩ } =
      hx_option2_cell c9env ∧
    c9env.solve_status.termination_condition = .optimal ∧
    c9env.solve_status.status = .ok :=
  C9_option2_asserts_read_option1_status c9env ⟨.infeasible, .error⟩
    (by simp only [hx_option2_cell, approxB, Bool.and_eq_true,
          decide_eq_true_eq, beq_iff_eq]
        norm_num [c9env])

end S2P
